import Mathlib

/-!
Verification of the `notify_billing` AWS billing-report Lambda
(`src/billing-app/notify_billing/app.py`).

The Python module is shallowly embedded below:

* decimal money amounts (`DecimalMoney`) are modelled as `ℚ`;
* Python `round(x, 2)` (round-half-to-even to 2 decimal places) is
  `pyRound2`, `math.ceil` is `ceilQ`, and `"%.2f"`-style formatting is
  `q2str`;
* calendar dates are a `Date` structure with explicit year/month/day and a
  validity predicate, and `datetime + timedelta(days=-1)` is `prevDay`;
* each fallible external call (Cost Explorer, the exchange-rate feed) is an
  explicit `Except String` argument: `Except.ok` is a successful response
  already projected to the fields the code reads, `Except.error` is any
  transport or parsing exception raised inside the `try` block;
* a Python function that can raise is embedded as an `Except`-valued
  function; one that swallows exceptions and falls off the end returns
  `Option` (with `none` for the implicit `None`).
-/

namespace NotifyBilling

/-! ### Rounding and numeric formatting -/

/-- Floor of a rational, computably (`Int.ediv` of numerator by denominator). -/
def floorQ (q : ℚ) : ℤ := q.num / (q.den : ℤ)

/-- Model of Python `math.ceil` on an exact rational. -/
def ceilQ (q : ℚ) : ℤ := -floorQ (-q)

/-- Round-half-to-even to the nearest integer: the rounding mode of Python
`round`. -/
def rhe (x : ℚ) : ℤ :=
  if x - (floorQ x : ℚ) < 1/2 then floorQ x
  else if x - (floorQ x : ℚ) = 1/2 then
    (if floorQ x % 2 = 0 then floorQ x else floorQ x + 1)
  else floorQ x + 1

/-- Model of Python `round(x, 2)` (app.py lines 174 and 190): round to the
nearest multiple of 1/100, ties to even. -/
def pyRound2 (q : ℚ) : ℚ := (rhe (q * 100) : ℚ) / 100

/-- Zero-pad a number to two digits, as `strftime` does for `%m`/`%d`. -/
def pad2 (n : ℕ) : String := if n < 10 then "0" ++ toString n else toString n

/-- Render an exact number of cents as a decimal string with two places. -/
def centsToStr (k : ℤ) : String :=
  if k < 0 then "-" ++ (toString (k.natAbs / 100) ++ "." ++ pad2 (k.natAbs % 100))
  else toString (k.natAbs / 100) ++ "." ++ pad2 (k.natAbs % 100)

/-- Model of Python `f"{x:.2f}"`: format with exactly two decimal places,
rounding half to even. -/
def q2str (q : ℚ) : String := centsToStr (rhe (q * 100))

theorem floorQ_eq (q : ℚ) : floorQ q = ⌊q⌋ := (Rat.floor_def).symm

theorem ceilQ_eq (q : ℚ) : ceilQ q = ⌈q⌉ := by
  rw [ceilQ, floorQ_eq, ← Int.ceil_neg]
  simp

theorem rhe_int (n : ℤ) : rhe (n : ℚ) = n := by
  simp [rhe, floorQ_eq]

/-- Evaluation rule for `rhe` when the value sits strictly below the next
half-integer. -/
theorem rhe_eq_down (x : ℚ) (n : ℤ) (h1 : (n : ℚ) ≤ x) (h2 : x < n + 1/2) :
    rhe x = n := by
  have hf : floorQ x = n := by
    rw [floorQ_eq, Int.floor_eq_iff]
    constructor
    · exact h1
    · linarith
  rw [rhe, hf]
  rw [if_pos]
  linarith

/-- Evaluation rule for `rhe` when the value sits strictly above a
half-integer. -/
theorem rhe_eq_up (x : ℚ) (n : ℤ) (h1 : (n : ℚ) + 1/2 < x) (h2 : x < n + 1) :
    rhe x = n + 1 := by
  have hf : floorQ x = n := by
    rw [floorQ_eq, Int.floor_eq_iff]
    constructor
    · linarith
    · linarith
  have hlt : ¬ (x - (n : ℚ) < 1/2) := by
    intro hc
    linarith
  have hne : ¬ (x - (n : ℚ) = 1/2) := by
    intro hc
    linarith
  rw [rhe, hf, if_neg hlt, if_neg hne]

/-- Round-half-to-even lands within half a unit of its argument. -/
theorem rhe_sub_abs_le (x : ℚ) : |(rhe x : ℚ) - x| ≤ 1/2 := by
  have hf : (floorQ x : ℚ) ≤ x := by
    rw [floorQ_eq]
    exact Int.floor_le x
  have hf2 : x < (floorQ x : ℚ) + 1 := by
    rw [floorQ_eq]
    exact Int.lt_floor_add_one x
  rw [rhe]
  split_ifs with h1 h2 h3 <;> rw [abs_le] <;> constructor <;> push_cast <;> linarith

/-! ### Calendar dates -/

/-- A calendar date, year/month/day at day granularity. -/
@[ext]
structure Date where
  year : ℕ
  month : ℕ
  day : ℕ
deriving DecidableEq, Repr

/-- Gregorian leap-year test, as implemented by Python `datetime`. -/
def isLeapYear (y : ℕ) : Bool := y % 4 = 0 && (y % 100 != 0 || y % 400 = 0)

/-- Number of days in a month of a given year. -/
def daysInMonth (y m : ℕ) : ℕ :=
  if m = 2 then (if isLeapYear y then 29 else 28)
  else if m = 4 ∨ m = 6 ∨ m = 9 ∨ m = 11 then 30
  else 31

/-- The dates representable by Python `datetime` (year at least 1, month and
day in range). -/
def Date.isValid (d : Date) : Prop :=
  1 ≤ d.year ∧ 1 ≤ d.month ∧ d.month ≤ 12 ∧ 1 ≤ d.day ∧
    d.day ≤ daysInMonth d.year d.month

instance (d : Date) : Decidable d.isValid := by
  unfold Date.isValid
  infer_instance

/-- Model of `dt + timedelta(days=-1)` restricted to dates: the previous
calendar day. -/
def prevDay (d : Date) : Date :=
  if 1 < d.day then ⟨d.year, d.month, d.day - 1⟩
  else if 1 < d.month then ⟨d.year, d.month - 1, daysInMonth d.year (d.month - 1)⟩
  else ⟨d.year - 1, 12, 31⟩

/-- The next calendar day, used to state independently that a date is the
day before another. -/
def nextDay (d : Date) : Date :=
  if d.day < daysInMonth d.year d.month then ⟨d.year, d.month, d.day + 1⟩
  else if d.month < 12 then ⟨d.year, d.month + 1, 1⟩
  else ⟨d.year + 1, 1, 1⟩

/-- Model of `strftime("%m/%d")`. -/
def fmtMD (d : Date) : String := pad2 d.month ++ "/" ++ pad2 d.day

/-! ### Embedding of `app.py` -/

/-- Model of `get_this_month_first_day` (app.py lines 249-257):
`dt_now.replace(day=1)`. -/
def get_this_month_first_day (dt_now : Date) : Date :=
  ⟨dt_now.year, dt_now.month, 1⟩

/-- Model of `get_last_month_first_day` (app.py lines 230-246):
`last_month = dt_now.month - 1`; when that is `0` it becomes December of the
previous year; then `dt_now.replace(year=last_month_year, month=last_month,
day=1)`. -/
def get_last_month_first_day (dt_now : Date) : Date :=
  let last_month := dt_now.month - 1
  if last_month = 0 then ⟨dt_now.year - 1, 12, 1⟩
  else ⟨dt_now.year, last_month, 1⟩

/-- Model of `get_total_cost_date_range` (app.py lines 208-227): the end is
`dt_now + timedelta(days=-1)`; the start is this month's first day, or last
month's first day when `dt_now.day == 1`. -/
def get_total_cost_date_range (dt_now : Date) : Date × Date :=
  let end_date := prevDay dt_now
  let start_date :=
    if dt_now.day = 1 then get_last_month_first_day dt_now
    else get_this_month_first_day dt_now
  (start_date, end_date)

/-- Model of `get_exchange_rate` (app.py lines 19-40): on a successful quote
fetch it returns `math.ceil` of the first quote value; on any exception
inside the `try` block it logs and returns `0`. -/
def get_exchange_rate (fetch : Except String ℚ) : ℤ :=
  match fetch with
  | Except.ok v => ceilQ v
  | Except.error _ => 0

/-- The fields of a successful Cost Explorer total-cost response that
`get_total_billing` reads: `TimePeriod.Start`, `TimePeriod.End` and the
`AmortizedCost` amount (a decimal string, modelled as `ℚ`). -/
structure CostResponse where
  start : Date
  endDate : Date
  amount : ℚ
deriving DecidableEq, Repr

/-- The dict returned by `get_total_billing`: keys `start`, `end` (the
stored end-exclusive boundary) and `billing`. -/
structure TotalBilling where
  start : Date
  endDate : Date
  billing : ℚ
deriving DecidableEq, Repr

/-- One entry of the list built by `get_service_billings`: keys
`service_name` and `billing`. -/
structure ServiceBilling where
  service_name : String
  billing : ℚ
deriving DecidableEq, Repr

/-- Model of `get_total_billing` (app.py lines 75-104): on success it
projects the response fields into the result dict; on any exception in the
`try` block it logs and falls off the end, returning Python `None`. -/
def get_total_billing (fetch : Except String CostResponse) : Option TotalBilling :=
  match fetch with
  | Except.ok r => some ⟨r.start, r.endDate, r.amount⟩
  | Except.error _ => none

/-- Model of `get_service_billings` (app.py lines 107-141): on success it
maps each group to a `(service_name, billing)` dict; on any exception in the
`try` block it logs and falls off the end, returning Python `None`. -/
def get_service_billings (fetch : Except String (List (String × ℚ))) :
    Option (List ServiceBilling) :=
  match fetch with
  | Except.ok groups => some (groups.map (fun g => ⟨g.1, g.2⟩))
  | Except.error _ => none

/-- One iteration of the body loop of `get_message` (app.py lines 188-199),
for an item that is not skipped: the formatted detail line. -/
def line_for (exchange_rate : ℤ) (item : ServiceBilling) : String :=
  let billing := pyRound2 item.billing
  if 0 < exchange_rate then
    "・" ++ item.service_name ++ ": ￥" ++
      toString (ceilQ (billing * (exchange_rate : ℚ))) ++ " (" ++
      q2str billing ++ " USD)"
  else "・" ++ item.service_name ++ ": " ++ q2str billing ++ " USD"

/-- The `details` list built by the loop of `get_message` (app.py lines
187-199): each item's amount is rounded with `round(·, 2)`; items whose
rounded amount equals `0.0` are skipped with `continue`. -/
def detailsList (exchange_rate : ℤ) (items : List ServiceBilling) : List String :=
  items.foldr
    (fun item acc =>
      if pyRound2 item.billing = 0 then acc
      else line_for exchange_rate item :: acc)
    []

/-- Model of `get_message` (app.py lines 144-205). The start and end dates
are both rendered with `strftime("%m/%d")` (the local named `end_yesterday`
is the stored end formatted as is, with no day subtracted). The local
`footer` is assigned only under `if exchange_rate > 0:`; when the rate is
not positive the trailing `return title, "\n".join(details), footer`
raises `UnboundLocalError`, modelled as `Except.error`. -/
def get_message (total_billing : TotalBilling)
    (service_billings : List ServiceBilling) (exchange_rate : ℤ) :
    Except String (String × String × String) :=
  let start := fmtMD total_billing.start
  let end_yesterday := fmtMD total_billing.endDate
  let total := pyRound2 total_billing.billing
  let title :=
    if 0 < exchange_rate then
      start ++ "～" ++ end_yesterday ++ "の請求額は、￥" ++
        toString (ceilQ (total * (exchange_rate : ℚ))) ++ " (" ++
        q2str total ++ " USD)です。"
    else
      start ++ "～" ++ end_yesterday ++ "の請求額は、" ++ q2str total ++
        " USDです。"
  let details := String.intercalate "\n" (detailsList exchange_rate service_billings)
  if 0 < exchange_rate then
    Except.ok (title, details,
      "※為替レート: " ++ toString exchange_rate ++ " 円/1ドル (" ++
        end_yesterday ++ " 時点)")
  else
    Except.error "UnboundLocalError: local variable footer referenced before assignment"

/-- Model of `lambda_handler` (app.py lines 260-264): fetch the total, the
per-service breakdown and the rate, compose, then post. When either cost
fetcher returned `None`, `get_message` subscripts `None` (or iterates over
it) and raises `TypeError`, which propagates out of the handler before
`post_discord` is reached. The result is the composed report passed to
`post_discord`, or the uncaught exception. -/
def lambda_handler (totalFetch : Except String CostResponse)
    (svcFetch : Except String (List (String × ℚ)))
    (rateFetch : Except String ℚ) :
    Except String (String × String × String) :=
  match get_total_billing totalFetch, get_service_billings svcFetch with
  | some t, some s => get_message t s (get_exchange_rate rateFetch)
  | _, _ => Except.error "TypeError: NoneType object is not subscriptable"

/-- Whether a run of `lambda_handler` reaches the `post_discord` call:
it does exactly when `get_message` returned instead of raising. -/
def notifier_invoked (totalFetch : Except String CostResponse)
    (svcFetch : Except String (List (String × ℚ)))
    (rateFetch : Except String ℚ) : Bool :=
  match lambda_handler totalFetch svcFetch rateFetch with
  | Except.ok _ => true
  | Except.error _ => false

/-- Modelled from the spec (section 4.2 rounding policy): rounding a
decimal amount up (ceiling) to 2 decimal places. The code under `src/` has
no such function; this is the spec-side rounding used to compare against
`pyRound2`. -/
def specCeilRound2 (q : ℚ) : ℚ := (ceilQ (q * 100) : ℚ) / 100

/-! ### Concrete example inputs and evaluation helpers -/

/-- The end-to-end example of spec section 8: the window `2024-03-01` to
`2024-03-15` with a total of `123.45` USD. -/
def exTotal : TotalBilling := ⟨⟨2024, 3, 1⟩, ⟨2024, 3, 15⟩, (12345 : ℚ) / 100⟩

theorem pyRound2_cents (k : ℤ) : pyRound2 ((k : ℚ) / 100) = (k : ℚ) / 100 := by
  have e : (k : ℚ) / 100 * 100 = (k : ℚ) := by
    field_simp
  rw [pyRound2, e, rhe_int]

theorem q2str_cents (k : ℤ) : q2str ((k : ℚ) / 100) = centsToStr k := by
  have e : (k : ℚ) / 100 * 100 = (k : ℚ) := by
    field_simp
  rw [q2str, e, rhe_int]

theorem pyRound2_smallpos : pyRound2 (4 / 1000) = 0 := by
  have h : rhe ((4 : ℚ) / 1000 * 100) = 0 := by
    apply rhe_eq_down _ 0 <;> norm_num
  rw [pyRound2, h]
  norm_num

theorem exTotal_round : pyRound2 exTotal.billing = (12345 : ℚ) / 100 := by
  have : exTotal.billing = ((12345 : ℤ) : ℚ) / 100 := by
    simp [exTotal]
  rw [this, pyRound2_cents]
  norm_num

theorem exTotal_yen : ceilQ (pyRound2 exTotal.billing * ((150 : ℤ) : ℚ)) = 18518 := by
  rw [exTotal_round, ceilQ_eq]
  have e : (12345 : ℚ) / 100 * ((150 : ℤ) : ℚ) = 37035 / 2 := by
    norm_num
  rw [e, Int.ceil_eq_iff]
  norm_num

theorem exTotal_usd_str : q2str (pyRound2 exTotal.billing) = "123.45" := by
  rw [exTotal_round]
  have : (12345 : ℚ) / 100 = ((12345 : ℤ) : ℚ) / 100 := by norm_num
  rw [this, q2str_cents]
  decide

/-- Full evaluation of the composer on the spec section 8 example with an
empty service list and rate 150. -/
theorem exMessage_eval :
    get_message exTotal [] 150 =
      Except.ok ("03/01～03/15の請求額は、￥18518 (123.45 USD)です。", "",
        "※為替レート: 150 円/1ドル (03/15 時点)") := by
  have h150 : (0 : ℤ) < 150 := by norm_num
  simp only [get_message, if_pos h150, exTotal_yen, exTotal_usd_str]
  simp only [exTotal, detailsList, List.foldr, String.intercalate]
  refine congrArg Except.ok ?_
  decide

/-! ### Claim theorems -/

/-- C1: for every valid calendar date `d` taken as today, the resolved
billing period has end equal to `d - 1 day` (stated via `nextDay`: the
resolved end is the date whose next day is `d`); if `d.day ≠ 1` its start
is the first day of `d`'s month, and if `d.day = 1` its start is the first
day of the preceding month, with January of year `Y` rolling over to
December of year `Y - 1`. -/
theorem period_resolution (d : Date) (h : d.isValid) :
    nextDay (get_total_cost_date_range d).2 = d ∧
    (get_total_cost_date_range d).1 =
      (if d.day = 1 then
        (if d.month = 1 then ⟨d.year - 1, 12, 1⟩
         else ⟨d.year, d.month - 1, 1⟩)
       else ⟨d.year, d.month, 1⟩) := by
  obtain ⟨y, m, dy⟩ := d
  simp only [Date.isValid] at h
  obtain ⟨hy, hm1, hm2, hd1, hd2⟩ := h
  constructor
  · show nextDay (prevDay ⟨y, m, dy⟩) = ⟨y, m, dy⟩
    simp only [prevDay]
    split_ifs with h1 h2
    · simp only [nextDay]
      have hlt : dy - 1 < daysInMonth y m := by omega
      rw [if_pos hlt]
      simp only [Date.mk.injEq, true_and]
      omega
    · simp only [nextDay]
      rw [if_neg (lt_irrefl _)]
      have hm12 : m - 1 < 12 := by omega
      rw [if_pos hm12]
      simp only [Date.mk.injEq, true_and]
      omega
    · simp only [nextDay]
      have h31 : daysInMonth (y - 1) 12 = 31 := rfl
      rw [h31, if_neg (lt_irrefl _), if_neg (lt_irrefl _)]
      simp only [Date.mk.injEq]
      omega
  · simp only [get_total_cost_date_range, get_last_month_first_day,
      get_this_month_first_day]
    split_ifs with hdy hm hml hml
    · rfl
    · exfalso
      omega
    · exfalso
      omega
    · rfl
    · rfl

/-- C2: the claim says that with rate `0` the composer returns a report
whose footer is the empty string. In the code the local `footer` is
assigned only inside `if exchange_rate > 0:`, so with rate `0` the final
`return` raises `UnboundLocalError` for every input: composition never
completes in degraded mode. -/
theorem degraded_mode_raises (t : TotalBilling) (s : List ServiceBilling) :
    get_message t s 0 =
      Except.error
        "UnboundLocalError: local variable footer referenced before assignment" :=
  rfl

/-- C3 counterexample: the total is rounded with Python `round(·, 2)`,
which rounds `0.004` down to `0`, strictly below the raw amount; the
spec-side 2-decimal ceiling of the same amount is `0.01`. -/
theorem rounding_not_ceiling :
    pyRound2 (4 / 1000) < 4 / 1000 ∧
    pyRound2 (4 / 1000) ≠ specCeilRound2 (4 / 1000) ∧
    specCeilRound2 (4 / 1000) = 1 / 100 := by
  have hc : specCeilRound2 (4 / 1000) = 1 / 100 := by
    have h1 : ceilQ ((4 : ℚ) / 1000 * 100) = 1 := by
      rw [ceilQ_eq, show ((4 : ℚ) / 1000 * 100) = 2 / 5 by norm_num,
        Int.ceil_eq_iff]
      norm_num
    rw [specCeilRound2, h1]
    norm_num
  refine ⟨?_, ?_, hc⟩
  · rw [pyRound2_smallpos]
    norm_num
  · rw [pyRound2_smallpos, hc]
    norm_num

/-- C3 amended: `round(·, 2)` rounds the fetched total to the nearest
2-decimal value (ties to even) before any conversion, so the reported
amount can be below the raw amount, but never by more than half a cent. -/
theorem pyRound2_within_half_cent (q : ℚ) : |pyRound2 q - q| ≤ 1 / 200 := by
  have h := rhe_sub_abs_le (q * 100)
  rw [pyRound2]
  have e : (rhe (q * 100) : ℚ) / 100 - q = ((rhe (q * 100) : ℚ) - q * 100) / 100 := by
    ring
  rw [e, abs_div, abs_of_pos (by norm_num : (0 : ℚ) < 100)]
  linarith

/-- C4 counterexample: on the window `2024-03-01` to `2024-03-15` the title
renders the stored end boundary itself, `03/15`: it is not the day-before
title the claim predicts (the `03/14` variant differs). -/
theorem title_shows_stored_end_cx :
    get_message exTotal [] 150 =
      Except.ok ("03/01～03/15の請求額は、￥18518 (123.45 USD)です。", "",
        "※為替レート: 150 円/1ドル (03/15 時点)") ∧
    "03/01～03/15の請求額は、￥18518 (123.45 USD)です。" ≠
      "03/01～03/14の請求額は、￥18518 (123.45 USD)です。" :=
  ⟨exMessage_eval, by decide⟩

/-- C4 amended: the composed title renders `total.start` and the stored
`total.endDate` (both as `month/day`), with no day subtracted from the end
boundary. -/
theorem title_renders_start_and_stored_end (t : TotalBilling)
    (s : List ServiceBilling) (r : ℤ) (hr : 0 < r) :
    ∃ body footer, get_message t s r =
      Except.ok (fmtMD t.start ++ "～" ++ fmtMD t.endDate ++ "の請求額は、￥" ++
          toString (ceilQ (pyRound2 t.billing * (r : ℚ))) ++ " (" ++
          q2str (pyRound2 t.billing) ++ " USD)です。",
        body, footer) :=
  ⟨String.intercalate "\n" (detailsList r s),
   "※為替レート: " ++ toString r ++ " 円/1ドル (" ++ fmtMD t.endDate ++ " 時点)",
   by simp only [get_message, if_pos hr]⟩

/-- Witness for the amended C4 on the section 8 example. -/
theorem title_renders_start_and_stored_end_witness :
    (0 : ℤ) < 150 ∧
    ∃ body footer, get_message exTotal [] 150 =
      Except.ok (fmtMD exTotal.start ++ "～" ++ fmtMD exTotal.endDate ++
          "の請求額は、￥" ++
          toString (ceilQ (pyRound2 exTotal.billing * ((150 : ℤ) : ℚ))) ++ " (" ++
          q2str (pyRound2 exTotal.billing) ++ " USD)です。",
        body, footer) :=
  ⟨by norm_num, title_renders_start_and_stored_end exTotal [] 150 (by norm_num)⟩

theorem detailsList_cons (r : ℤ) (hd : ServiceBilling) (tl : List ServiceBilling) :
    detailsList r (hd :: tl) =
      (if pyRound2 hd.billing = 0 then detailsList r tl
       else line_for r hd :: detailsList r tl) :=
  rfl

theorem detailsList_eq_filter_map (r : ℤ) (items : List ServiceBilling) :
    detailsList r items =
      (items.filter (fun i => decide (pyRound2 i.billing ≠ 0))).map (line_for r) := by
  induction items with
  | nil => rfl
  | cons hd tl ih =>
    rw [detailsList_cons]
    by_cases h : pyRound2 hd.billing = 0
    · simp [List.filter, h, ih]
    · simp [List.filter, h, ih]

/-- C5 counterexample: a service entry with raw amount `0.004` rounds to
`0.00` under `round(·, 2)` and is suppressed — the composed body is empty,
where the claim predicts the entry is shown as `0.01`. -/
theorem small_service_amount_suppressed_cx :
    get_message exTotal [⟨"EC2", 4 / 1000⟩] 150 =
      Except.ok ("03/01～03/15の請求額は、￥18518 (123.45 USD)です。", "",
        "※為替レート: 150 円/1ドル (03/15 時点)") := by
  have hd : detailsList 150 [⟨"EC2", 4 / 1000⟩] = [] := by
    simp [detailsList, pyRound2_smallpos]
  have h150 : (0 : ℤ) < 150 := by norm_num
  simp only [get_message, if_pos h150, exTotal_yen, exTotal_usd_str, hd]
  simp only [exTotal, String.intercalate]
  refine congrArg Except.ok ?_
  decide

/-- C5 amended: each service amount is rounded with `round(·, 2)` (nearest,
ties to even — not ceiling) before the zero check; entries whose rounded
amount equals `0.00` never appear in the composed body, but `0.004` rounds
to `0.00` and is suppressed rather than shown. -/
theorem zero_suppression (t : TotalBilling) (items : List ServiceBilling)
    (r : ℤ) (hr : 0 < r) :
    ∃ title footer, get_message t items r =
      Except.ok (title,
        String.intercalate "\n"
          ((items.filter (fun i => decide (pyRound2 i.billing ≠ 0))).map
            (line_for r)),
        footer) := by
  refine ⟨fmtMD t.start ++ "～" ++ fmtMD t.endDate ++ "の請求額は、￥" ++
      toString (ceilQ (pyRound2 t.billing * (r : ℚ))) ++ " (" ++
      q2str (pyRound2 t.billing) ++ " USD)です。",
    "※為替レート: " ++ toString r ++ " 円/1ドル (" ++ fmtMD t.endDate ++
      " 時点)", ?_⟩
  simp only [get_message, if_pos hr, detailsList_eq_filter_map]

/-- Witness for the amended C5: with services EC2 100.00 and Tax 0.00 at
rate 150, the body is exactly the EC2 line. -/
theorem zero_suppression_witness :
    (0 : ℤ) < 150 ∧
    (∃ title footer,
      get_message exTotal [⟨"EC2", (10000 : ℚ) / 100⟩, ⟨"Tax", 0⟩] 150 =
        Except.ok (title,
          String.intercalate "\n"
            ((([⟨"EC2", (10000 : ℚ) / 100⟩, ⟨"Tax", 0⟩] :
                List ServiceBilling).filter
              (fun i => decide (pyRound2 i.billing ≠ 0))).map (line_for 150)),
          footer)) :=
  ⟨by norm_num,
   zero_suppression exTotal [⟨"EC2", (10000 : ℚ) / 100⟩, ⟨"Tax", 0⟩] 150
     (by norm_num)⟩

/-- C6 counterexample: with total `123.45` and rate `150` the title shows
`￥18518`, the integer ceiling of `18517.5`; the claim predicts the
2-decimal ceiling, which is `18517.50` — a different number. -/
theorem integer_yen_ceiling_cx :
    get_message exTotal [] 150 =
      Except.ok ("03/01～03/15の請求額は、￥18518 (123.45 USD)です。", "",
        "※為替レート: 150 円/1ドル (03/15 時点)") ∧
    specCeilRound2 (pyRound2 exTotal.billing * 150) = 37035 / 2 ∧
    ((37035 : ℚ) / 2) ≠ ((18518 : ℚ)) := by
  refine ⟨exMessage_eval, ?_, by norm_num⟩
  rw [exTotal_round]
  have e : (12345 : ℚ) / 100 * 150 * 100 = ((1851750 : ℤ) : ℚ) := by norm_num
  rw [specCeilRound2, e]
  have : ceilQ ((1851750 : ℤ) : ℚ) = 1851750 := by
    rw [ceilQ_eq]
    exact Int.ceil_intCast 1851750
  rw [this]
  norm_num

/-- C6 amended: with a positive rate the title states the source amount at
2 decimals and the converted amount as the integer ceiling of
`rounded-total × rate` with the `￥` symbol; each body line mirrors that
dual-currency format; the footer states the rate and the rendered end date
as the as-of date. -/
theorem dual_currency_format (t : TotalBilling) (s : List ServiceBilling)
    (r : ℤ) (hr : 0 < r) :
    get_message t s r =
      Except.ok (fmtMD t.start ++ "～" ++ fmtMD t.endDate ++ "の請求額は、￥" ++
          toString (ceilQ (pyRound2 t.billing * (r : ℚ))) ++ " (" ++
          q2str (pyRound2 t.billing) ++ " USD)です。",
        String.intercalate "\n" (detailsList r s),
        "※為替レート: " ++ toString r ++ " 円/1ドル (" ++ fmtMD t.endDate ++
          " 時点)") ∧
    ∀ item : ServiceBilling, line_for r item =
      "・" ++ item.service_name ++ ": ￥" ++
        toString (ceilQ (pyRound2 item.billing * (r : ℚ))) ++ " (" ++
        q2str (pyRound2 item.billing) ++ " USD)" := by
  constructor
  · simp only [get_message, if_pos hr]
  · intro item
    simp only [line_for, if_pos hr]

/-- Witness for the amended C6 on the section 8 example. -/
theorem dual_currency_format_witness :
    (0 : ℤ) < 150 ∧
    (get_message exTotal [] 150 =
      Except.ok (fmtMD exTotal.start ++ "～" ++ fmtMD exTotal.endDate ++
          "の請求額は、￥" ++
          toString (ceilQ (pyRound2 exTotal.billing * ((150 : ℤ) : ℚ))) ++ " (" ++
          q2str (pyRound2 exTotal.billing) ++ " USD)です。",
        String.intercalate "\n" (detailsList 150 []),
        "※為替レート: " ++ toString (150 : ℤ) ++ " 円/1ドル (" ++
          fmtMD exTotal.endDate ++ " 時点)") ∧
    ∀ item : ServiceBilling, line_for 150 item =
      "・" ++ item.service_name ++ ": ￥" ++
        toString (ceilQ (pyRound2 item.billing * ((150 : ℤ) : ℚ))) ++ " (" ++
        q2str (pyRound2 item.billing) ++ " USD)") :=
  ⟨by norm_num, dual_currency_format exTotal [] 150 (by norm_num)⟩

/-- C7: whenever the total-cost fetch fails, `get_total_billing` returns
`None`, `get_message` then raises before composing, and `post_discord` is
never reached — the run aborts with nothing sent, for every outcome of the
other two fetches. -/
theorem abort_on_cost_failure (e : String)
    (sf : Except String (List (String × ℚ))) (rf : Except String ℚ) :
    notifier_invoked (Except.error e) sf rf = false :=
  rfl

/-- C8: the rate fetcher itself never raises and returns the sentinel `0`
on every failure, but the pipeline does not then deliver a
source-currency-only report: `get_message` raises `UnboundLocalError` on
the unassigned `footer`, so the whole run fails instead. -/
theorem rate_failure_no_degraded_report (e : String) (resp : CostResponse)
    (groups : List (String × ℚ)) :
    get_exchange_rate (Except.error e) = 0 ∧
    lambda_handler (Except.ok resp) (Except.ok groups) (Except.error e) =
      Except.error
        "UnboundLocalError: local variable footer referenced before assignment" :=
  ⟨rfl, rfl⟩

/-- C9: report composition is a pure function of the total billing, the
service billing list and the exchange rate — identical inputs give an
identical composed result. -/
theorem compose_deterministic (t t' : TotalBilling)
    (s s' : List ServiceBilling) (r r' : ℤ)
    (ht : t = t') (hs : s = s') (hr : r = r') :
    get_message t s r = get_message t' s' r' := by
  rw [ht, hs, hr]

/-- Witness for C9 at a concrete input. -/
theorem compose_deterministic_witness :
    get_message exTotal [] 150 = get_message exTotal [] 150 :=
  compose_deterministic exTotal exTotal [] [] 150 150 rfl rfl rfl

/-- C10: on any failure of a cost-backend query, both cost fetchers swallow
the exception and return `None` (no typed error escapes them). -/
theorem cost_fetchers_return_none (e : String) :
    get_total_billing (Except.error e) = none ∧
    get_service_billings (Except.error e) = none :=
  ⟨rfl, rfl⟩

/-- Witness for C1 at the month-rollover example `2024-01-01`, which the
theorem resolves to the period `2023-12-01` through `2023-12-31`. -/
theorem period_resolution_witness :
    (Date.mk 2024 1 1).isValid ∧
    (nextDay (get_total_cost_date_range ⟨2024, 1, 1⟩).2 = ⟨2024, 1, 1⟩ ∧
     (get_total_cost_date_range ⟨2024, 1, 1⟩).1 =
       (if (Date.mk 2024 1 1).day = 1 then
         (if (Date.mk 2024 1 1).month = 1 then
            ⟨(Date.mk 2024 1 1).year - 1, 12, 1⟩
          else ⟨(Date.mk 2024 1 1).year, (Date.mk 2024 1 1).month - 1, 1⟩)
        else ⟨(Date.mk 2024 1 1).year, (Date.mk 2024 1 1).month, 1⟩)) ∧
    get_total_cost_date_range ⟨2024, 1, 1⟩ = (⟨2023, 12, 1⟩, ⟨2023, 12, 31⟩) :=
  ⟨by decide, period_resolution ⟨2024, 1, 1⟩ (by decide), by decide⟩

end NotifyBilling
